import Mathlib

/-!
Verification of the Mastra Slack/Okta IT-support agent against its
natural-language specification.

The development shallowly embeds the two core source files:

* `src/mastra/index.ts` — the `/slack/events` webhook handler with its
  URL-verification short-circuit, bot filter, in-memory dedup cache and
  mention-stripping, modelled as a pure function from the request body and
  the current cache to an ordered trace of effects plus the new cache;
* the Okta tool file (`findUserByEmail`, `findGroupByName`, `lockUser`,
  `unlockUser`, `addUserToGroup`, `resetMFA`, `resetPassword`,
  `getUserGroups`), modelled as pure functions from the provider's HTTP
  response to an `Except` of the thrown JS `Error` or the returned payload.

JavaScript's relevant semantics are made explicit: string truthiness
(`""` and `undefined` are falsy), template-literal rendering of
`undefined`, `res.ok` as status 200–299, the global regex replace
`/<@[A-Z0-9]+>\s*/g`, `trim`, and `toLowerCase`.
-/

namespace MastraAgent

/-! ## JavaScript string primitives -/

/-- Truthiness of an optional JS string: `undefined` and `""` are falsy. -/
def truthyStr : Option String → Bool
  | none => false
  | some s => s ≠ ""

/-- Rendering of an optional JS string inside a template literal:
`undefined` renders as the text `"undefined"`. -/
def jsStr : Option String → String
  | none => "undefined"
  | some s => s

/-- JS `a || b` on optional strings: `a` when truthy, else `b`. -/
def jsOr (a b : Option String) : Option String :=
  if truthyStr a then a else b

/-- The whitespace class matched by `\s` and trimmed by `String.trim`
(ASCII part, which covers all inputs this system sees). -/
def isSpaceChar (c : Char) : Bool :=
  c = ' ' || c = '\t' || c = '\n' || c = '\r' || c = '\x0b' || c = '\x0c'

/-- Characters matched by the mention-id class `[A-Z0-9]`. -/
def isMentChar (c : Char) : Bool :=
  ('A' ≤ c && c ≤ 'Z') || ('0' ≤ c && c ≤ '9')

/-- Try to match the regex `<@[A-Z0-9]+>\s*` at the head of the character
list; on success return the remainder after the match. -/
def matchMention : List Char → Option (List Char)
  | '<' :: '@' :: rest =>
    let ids := rest.takeWhile isMentChar
    let rest' := rest.dropWhile isMentChar
    if ids.isEmpty then none
    else
      match rest' with
      | '>' :: rest'' => some (rest''.dropWhile isSpaceChar)
      | _ => none
  | _ => none

/-- Fuelled scanner for the global replace of `/<@[A-Z0-9]+>\s*/g` by the
empty string: at each position, remove a mention match or keep the
character. Fuel bounds the recursion; `l.length` fuel is always enough
since every step consumes at least one character. -/
def removeMentionsFuel : Nat → List Char → List Char
  | 0, l => l
  | _ + 1, [] => []
  | n + 1, c :: cs =>
    match matchMention (c :: cs) with
    | some rest => removeMentionsFuel n rest
    | none => c :: removeMentionsFuel n cs

/-- `text.replace(/<@[A-Z0-9]+>\s*/g, "")` on a character list. -/
def removeMentions (l : List Char) : List Char :=
  removeMentionsFuel l.length l

/-- JS `String.prototype.trim` on a character list. -/
def jsTrim (l : List Char) : List Char :=
  ((l.dropWhile isSpaceChar).reverse.dropWhile isSpaceChar).reverse

/-- `text.replace(/<@[A-Z0-9]+>\s*/g, "").trim()` — the transformation the
handler applies to an `app_mention` event's text. -/
def stripMentions (s : String) : String :=
  String.mk (jsTrim (removeMentions s.data))

/-- JS `String.prototype.toLowerCase` (ASCII-faithful). -/
def jsToLower (s : String) : String :=
  String.mk (s.data.map Char.toLower)

/-! ## Okta identity-provider client (the tools file)

Each tool's `execute` performs one `fetch` against the Okta API and then
acts on the response.  We embed each tool as a pure function of the
provider's response.  A thrown JS `Error` is modelled as `Except.error`
carrying the error's message string. -/

/-- `fetch` response as the tools consume it: HTTP status plus the body
text (`res.text()`). -/
structure HttpResponse where
  status : Nat
  body : String
deriving DecidableEq, Repr

/-- `res.ok` — true exactly when the status is in 200–299. -/
def HttpResponse.ok (r : HttpResponse) : Bool :=
  200 ≤ r.status && r.status ≤ 299

/-- A thrown JS `Error`, identified by its message. -/
structure JsError where
  message : String
deriving DecidableEq, Repr

/-- An Okta user as the tools see it: id plus profile email. -/
structure OktaUser where
  id : String
  email : String
deriving DecidableEq, Repr

/-- An Okta group as the tools see it: id plus profile name. -/
structure OktaGroup where
  id : String
  name : String
deriving DecidableEq, Repr

/-- `findUserByEmail.execute`: on a non-ok response it throws
`Okta API returned <status>: <body>`; otherwise it returns
`users[0] || null`, i.e. the first element of the parsed user array or an
absent user. `users` is the array the provider's JSON body parsed to. -/
def findUserByEmail (r : HttpResponse) (users : List OktaUser) :
    Except JsError (Option OktaUser) :=
  if !r.ok then
    .error ⟨"Okta API returned " ++ toString r.status ++ ": " ++ r.body⟩
  else
    .ok users.head?

/-- `getUserGroups.execute`: no status check; returns
`groups.map(g => g.profile.name)` from the parsed body. -/
def getUserGroups (groups : List OktaGroup) : Except JsError (List String) :=
  .ok (groups.map (·.name))

/-- `resetPassword.execute`: performs no `res.ok` check at all; it parses
the body and returns the `resetPasswordUrl` field, which is absent
(`undefined`) when the provider returned an error payload. -/
def resetPassword (_r : HttpResponse) (resetPasswordUrl : Option String) :
    Except JsError (Option String) :=
  .ok resetPasswordUrl

/-- `lockUser.execute`: on a non-ok response throws
`Failed to lock user: <body>`; otherwise success. -/
def lockUser (r : HttpResponse) : Except JsError (Bool × String) :=
  if !r.ok then .error ⟨"Failed to lock user: " ++ r.body⟩
  else .ok (true, "User account has been locked")

/-- `unlockUser.execute`: on a non-ok response throws
`Failed to unlock user: <body>`; otherwise success. -/
def unlockUser (r : HttpResponse) : Except JsError (Bool × String) :=
  if !r.ok then .error ⟨"Failed to unlock user: " ++ r.body⟩
  else .ok (true, "User account has been unlocked")

/-- `addUserToGroup.execute`: on a non-ok response throws
`Failed to add user to group: <body>`; otherwise success. -/
def addUserToGroup (r : HttpResponse) : Except JsError (Bool × String) :=
  if !r.ok then .error ⟨"Failed to add user to group: " ++ r.body⟩
  else .ok (true, "User has been added to the group")

/-- `resetMFA.execute`: on a non-ok response throws
`Failed to reset MFA: <body>`; otherwise success. -/
def resetMFA (r : HttpResponse) : Except JsError (Bool × String) :=
  if !r.ok then .error ⟨"Failed to reset MFA: " ++ r.body⟩
  else .ok (true, "MFA factors have been reset. User will need to re-enroll.")

/-- `findGroupByName.execute`: on a non-ok response throws
`Failed to search groups: <body>`; otherwise searches the parsed candidate
array for the first group whose name equals the query case-insensitively,
returning it or an absent group. -/
def findGroupByName (groupName : String) (r : HttpResponse)
    (groups : List OktaGroup) : Except JsError (Option OktaGroup) :=
  if !r.ok then .error ⟨"Failed to search groups: " ++ r.body⟩
  else .ok (groups.find? (fun g => jsToLower g.name == jsToLower groupName))

/-! ## The `/slack/events` webhook handler (`src/mastra/index.ts`)

The handler is an async function over the Hono context.  We embed it as a
pure function from the parsed request body and the current dedup cache to
the ordered trace of its effects together with the updated cache.  The
trace records, in program order: dedup-cache insertions, the agent
invocation (`agent.generate`), the reply post
(`fetch https://slack.com/api/chat.postMessage`), and the moment the HTTP
response is produced (`return c.json(...)` / `return c.body(null)`) —
in Hono the response is sent only when the handler returns. -/

/-- The parsed `event` object of a Slack event-callback body. All fields
are optional JS strings. -/
structure SlackEvent where
  type : Option String
  text : Option String
  channel : Option String
  client_msg_id : Option String
  ts : Option String
  bot_id : Option String
deriving DecidableEq, Repr

/-- The parsed JSON request body: `{ type, challenge, event }`. -/
structure RequestBody where
  type : Option String
  challenge : Option String
  event : Option SlackEvent
deriving DecidableEq, Repr

/-- The HTTP response the handler returns: either the verification echo
`c.json({ challenge })` or the empty 200 body `c.body(null)`. -/
inductive HandlerResponse
  | challengeJson (challenge : Option String)
  | empty200
deriving DecidableEq, Repr

/-- One observable effect of the handler, in program order. -/
inductive Action
  | cacheInsert (fingerprint : String)
  | agentCall (text : String)
  | postMessage (channel text : String)
  | respond (r : HandlerResponse)
deriving DecidableEq, Repr

/-- Is this action an agent invocation? -/
def Action.isAgentCall : Action → Bool
  | .agentCall _ => true
  | _ => false

/-- Is this action the sending of the HTTP response? -/
def Action.isRespond : Action → Bool
  | .respond _ => true
  | _ => false

/-- The dedup fingerprint
`` `${event?.client_msg_id || event?.ts}_${event?.channel}` ``,
with JS optional chaining (`event` itself may be `undefined`), `||`
falsiness, and template-literal rendering of `undefined`. -/
def fingerprintOf (event : Option SlackEvent) : String :=
  jsStr (jsOr (event.bind (·.client_msg_id)) (event.bind (·.ts)))
    ++ "_" ++ jsStr (event.bind (·.channel))

/-- Does `event && (event.type === "message" || event.type === "app_mention")
&& event.text` hold? -/
def eligibleEvent : Option SlackEvent → Bool
  | none => false
  | some e =>
    (e.type == some "message" || e.type == some "app_mention") && truthyStr e.text

/-- The message text forwarded to the agent: the raw text, with the global
mention-strip-and-trim applied when the event is an `app_mention`. -/
def forwardedText (e : SlackEvent) : String :=
  if e.type == some "app_mention" then stripMentions (jsStr e.text)
  else jsStr e.text

/-- The webhook handler, as a pure function of the parsed request body and
the current `processedEvents` cache.  `agentReply` stands for the external
agent: the text of `agent.generate(messageText)` as a function of the
forwarded message.  Returns the effect trace in program order and the
updated cache. -/
def handler (agentReply : String → String) (body : RequestBody)
    (cache : List String) : List Action × List String :=
  if body.type == some "url_verification" then
    ([.respond (.challengeJson body.challenge)], cache)
  else if truthyStr (body.event.bind (·.bot_id)) then
    ([.respond .empty200], cache)
  else
    let fp := fingerprintOf body.event
    if fp ∈ cache then
      ([.respond .empty200], cache)
    else
      let cache' := fp :: cache
      if eligibleEvent body.event then
        match body.event with
        | some e =>
          let msg := forwardedText e
          ([.cacheInsert fp, .agentCall msg,
            .postMessage (jsStr e.channel) (agentReply msg),
            .respond .empty200], cache')
        | none => ([.cacheInsert fp, .respond .empty200], cache')
      else
        ([.cacheInsert fp, .respond .empty200], cache')

/-- The dedup-cache TTL: `EVENT_EXPIRY_MS = 5 * 60 * 1000`. -/
def EVENT_EXPIRY_MS : Nat := 5 * 60 * 1000

/-- The timer callback `() => processedEvents.clear()` run every
`EVENT_EXPIRY_MS`: a wholesale flush of the cache. -/
def timerFlush (_cache : List String) : List String := []

/-- One step of the process: either an inbound webhook request or a tick
of the cache-clearing timer. -/
inductive Step
  | request (body : RequestBody)
  | flush
deriving DecidableEq, Repr

/-- Run a sequence of steps from a starting cache, collecting the effect
trace of each request step (a flush contributes an empty trace). -/
def runSteps (agentReply : String → String) :
    List Step → List String → List (List Action) × List String
  | [], cache => ([], cache)
  | .request b :: rest, cache =>
    let (tr, cache') := handler agentReply b cache
    let (trs, cacheF) := runSteps agentReply rest cache'
    (tr :: trs, cacheF)
  | .flush :: rest, cache =>
    let (trs, cacheF) := runSteps agentReply rest (timerFlush cache)
    ([] :: trs, cacheF)

/-- The number of traces in which fingerprint `f` was both inserted and
the agent invoked: the number of events with fingerprint `f` that were
forwarded to the agent. -/
def forwardedCount (f : String) (traces : List (List Action)) : Nat :=
  traces.countP (fun tr => decide (Action.cacheInsert f ∈ tr) && tr.any Action.isAgentCall)

/-! ## Branch equations of the handler -/

/-- Branch equation: a verification request is answered by echoing the
challenge, with no other effect. -/
theorem handler_verif (ar : String → String) (b : RequestBody)
    (c : List String) (hv : b.type = some "url_verification") :
    handler ar b c = ([.respond (.challengeJson b.challenge)], c) := by
  simp [handler, hv]

/-- Branch equation: a non-verification request with a truthy `bot_id` is
discarded with only the empty 200 response. -/
theorem handler_bot (ar : String → String) (b : RequestBody)
    (c : List String) (hv : b.type ≠ some "url_verification")
    (hb : truthyStr (b.event.bind (·.bot_id)) = true) :
    handler ar b c = ([.respond .empty200], c) := by
  simp [handler, hv, hb]

/-- Branch equation: a non-verification, non-bot request whose event
fingerprint is already cached is discarded; the cache is unchanged. -/
theorem handler_dup (ar : String → String) (b : RequestBody)
    (c : List String) (hv : b.type ≠ some "url_verification")
    (hb : truthyStr (b.event.bind (·.bot_id)) = false)
    (hdup : fingerprintOf b.event ∈ c) :
    handler ar b c = ([.respond .empty200], c) := by
  simp [handler, hv, hb, hdup]

/-- Branch equation: a fresh, eligible event is forwarded: its
fingerprint is inserted first, then the agent is invoked on the forwarded
text, the reply is posted, and only then is the response produced. -/
theorem handler_fresh_eligible (ar : String → String) (b : RequestBody)
    (e : SlackEvent) (c : List String)
    (hv : b.type ≠ some "url_verification")
    (hb : truthyStr (b.event.bind (·.bot_id)) = false)
    (hdup : fingerprintOf b.event ∉ c)
    (hee : b.event = some e)
    (he : eligibleEvent b.event = true) :
    handler ar b c =
      ([.cacheInsert (fingerprintOf b.event), .agentCall (forwardedText e),
        .postMessage (jsStr e.channel) (ar (forwardedText e)),
        .respond .empty200], fingerprintOf b.event :: c) := by
  rw [hee] at hb hdup he ⊢
  have hb' : truthyStr e.bot_id = false := by simpa using hb
  simp [handler, hv, hee, hb', hdup, he]

/-- Branch equation: a fresh but ineligible event (wrong subtype, no
text, or no event object) still has its fingerprint inserted, then only
the empty response is produced. -/
theorem handler_fresh_ineligible (ar : String → String) (b : RequestBody)
    (c : List String)
    (hv : b.type ≠ some "url_verification")
    (hb : truthyStr (b.event.bind (·.bot_id)) = false)
    (hdup : fingerprintOf b.event ∉ c)
    (he : eligibleEvent b.event = false) :
    handler ar b c =
      ([.cacheInsert (fingerprintOf b.event), .respond .empty200],
        fingerprintOf b.event :: c) := by
  simp [handler, hv, hb, hdup, he]

/-- An eligible event is in particular present. -/
theorem eligibleEvent_isSome (o : Option SlackEvent)
    (h : eligibleEvent o = true) : ∃ e, o = some e := by
  cases o with
  | none => simp [eligibleEvent] at h
  | some e => exact ⟨e, rfl⟩

/-! ## Helper lemmas about the handler -/

/-- The handler never removes fingerprints from the cache. -/
theorem handler_cache_mono (ar : String → String) (b : RequestBody)
    (c : List String) (x : String) (hx : x ∈ c) : x ∈ (handler ar b c).2 := by
  by_cases hv : b.type = some "url_verification"
  · rw [handler_verif ar b c hv]; exact hx
  by_cases hb : truthyStr (b.event.bind (·.bot_id)) = true
  · rw [handler_bot ar b c hv hb]; exact hx
  rw [Bool.not_eq_true] at hb
  by_cases hdup : fingerprintOf b.event ∈ c
  · rw [handler_dup ar b c hv hb hdup]; exact hx
  by_cases he : eligibleEvent b.event = true
  · obtain ⟨e, hee⟩ := eligibleEvent_isSome _ he
    rw [handler_fresh_eligible ar b e c hv hb hdup hee he]
    exact List.mem_cons_of_mem _ hx
  · rw [Bool.not_eq_true] at he
    rw [handler_fresh_ineligible ar b c hv hb hdup he]
    exact List.mem_cons_of_mem _ hx

/-- If the handler's trace records the insertion of fingerprint `f`, then
`f` is the request's event fingerprint, `f` was not cached before, and the
new cache is `f` pushed onto the old one. -/
theorem handler_insert_mem (ar : String → String) (b : RequestBody)
    (c : List String) (f : String)
    (h : Action.cacheInsert f ∈ (handler ar b c).1) :
    f = fingerprintOf b.event ∧ f ∉ c ∧ (handler ar b c).2 = f :: c := by
  by_cases hv : b.type = some "url_verification"
  · rw [handler_verif ar b c hv] at h ⊢; simp at h
  by_cases hb : truthyStr (b.event.bind (·.bot_id)) = true
  · rw [handler_bot ar b c hv hb] at h ⊢; simp at h
  rw [Bool.not_eq_true] at hb
  by_cases hdup : fingerprintOf b.event ∈ c
  · rw [handler_dup ar b c hv hb hdup] at h ⊢; simp at h
  by_cases he : eligibleEvent b.event = true
  · obtain ⟨e, hee⟩ := eligibleEvent_isSome _ he
    rw [handler_fresh_eligible ar b e c hv hb hdup hee he] at h ⊢
    simp at h
    subst h
    exact ⟨rfl, hdup, rfl⟩
  · rw [Bool.not_eq_true] at he
    rw [handler_fresh_ineligible ar b c hv hb hdup he] at h ⊢
    simp at h
    subst h
    exact ⟨rfl, hdup, rfl⟩

/-- After any non-verification, non-bot request, the request's event
fingerprint is in the cache. -/
theorem handler_fp_mem (ar : String → String) (b : RequestBody)
    (c : List String)
    (hv : b.type ≠ some "url_verification")
    (hb : truthyStr (b.event.bind (·.bot_id)) = false) :
    fingerprintOf b.event ∈ (handler ar b c).2 := by
  by_cases hdup : fingerprintOf b.event ∈ c
  · rw [handler_dup ar b c hv hb hdup]; exact hdup
  by_cases he : eligibleEvent b.event = true
  · obtain ⟨e, hee⟩ := eligibleEvent_isSome _ he
    rw [handler_fresh_eligible ar b e c hv hb hdup hee he]
    exact List.mem_cons_self _ _
  · rw [Bool.not_eq_true] at he
    rw [handler_fresh_ineligible ar b c hv hb hdup he]
    exact List.mem_cons_self _ _

/-- If the agent is invoked during a request, the very first recorded
effect of that request is the insertion of its event fingerprint into the
dedup cache. -/
theorem handler_insert_first (ar : String → String) (b : RequestBody)
    (c : List String)
    (h : (handler ar b c).1.any Action.isAgentCall = true) :
    (handler ar b c).1.head? = some (.cacheInsert (fingerprintOf b.event)) := by
  by_cases hv : b.type = some "url_verification"
  · rw [handler_verif ar b c hv] at h ⊢; simp [Action.isAgentCall] at h
  by_cases hb : truthyStr (b.event.bind (·.bot_id)) = true
  · rw [handler_bot ar b c hv hb] at h ⊢; simp [Action.isAgentCall] at h
  rw [Bool.not_eq_true] at hb
  by_cases hdup : fingerprintOf b.event ∈ c
  · rw [handler_dup ar b c hv hb hdup] at h ⊢; simp [Action.isAgentCall] at h
  by_cases he : eligibleEvent b.event = true
  · obtain ⟨e, hee⟩ := eligibleEvent_isSome _ he
    rw [handler_fresh_eligible ar b e c hv hb hdup hee he]
    rfl
  · rw [Bool.not_eq_true] at he
    rw [handler_fresh_ineligible ar b c hv hb hdup he] at h ⊢
    simp [Action.isAgentCall] at h

/-- Unfolding of `runSteps` on a request step. -/
theorem runSteps_request (ar : String → String) (b : RequestBody)
    (rest : List Step) (c : List String) :
    runSteps ar (.request b :: rest) c =
      ((handler ar b c).1 :: (runSteps ar rest ((handler ar b c).2)).1,
        (runSteps ar rest ((handler ar b c).2)).2) := by
  rcases h : handler ar b c with ⟨tr, c2⟩
  rcases h2 : runSteps ar rest c2 with ⟨trs, cf⟩
  simp only [runSteps, h, h2]

/-- Unfolding of `forwardedCount` on a cons. -/
theorem forwardedCount_cons (f : String) (tr : List Action)
    (trs : List (List Action)) :
    forwardedCount f (tr :: trs) =
      forwardedCount f trs +
        (if (decide (Action.cacheInsert f ∈ tr) && tr.any Action.isAgentCall)
            = true then 1 else 0) := by
  simp [forwardedCount, List.countP_cons]

/-- If fingerprint `f` is already cached, no trace of the run (with no
timer flush) counts as a forwarding of `f`. -/
theorem forwardedCount_zero_of_mem (ar : String → String) (f : String)
    (steps : List Step) (c : List String)
    (hnf : Step.flush ∉ steps) (hf : f ∈ c) :
    forwardedCount f (runSteps ar steps c).1 = 0 := by
  induction steps generalizing c with
  | nil => rfl
  | cons s rest ih =>
    cases s with
    | flush => exact absurd (List.mem_cons_self _ _) hnf
    | request b =>
      have hnf' : Step.flush ∉ rest := fun hm => hnf (List.mem_cons_of_mem _ hm)
      have hnotins : Action.cacheInsert f ∉ (handler ar b c).1 := by
        intro hins
        exact (handler_insert_mem ar b c f hins).2.1 hf
      rw [runSteps_request]
      simp only [forwardedCount_cons]
      rw [ih _ hnf' (handler_cache_mono ar b c f hf)]
      simp [hnotins]

/-- Core dedup bound: in any run containing no timer flush, at most one
request is forwarded to the agent with a given fingerprint. -/
theorem forwardedCount_le_one (ar : String → String) (f : String)
    (steps : List Step) (c : List String)
    (hnf : Step.flush ∉ steps) :
    forwardedCount f (runSteps ar steps c).1 ≤ 1 := by
  induction steps generalizing c with
  | nil => exact Nat.zero_le 1
  | cons s rest ih =>
    cases s with
    | flush => exact absurd (List.mem_cons_self _ _) hnf
    | request b =>
      have hnf' : Step.flush ∉ rest := fun hm => hnf (List.mem_cons_of_mem _ hm)
      rw [runSteps_request]
      simp only [forwardedCount_cons]
      by_cases hp : (decide (Action.cacheInsert f ∈ (handler ar b c).1)
          && (handler ar b c).1.any Action.isAgentCall) = true
      · have hins : Action.cacheInsert f ∈ (handler ar b c).1 := by
          have := (Bool.and_eq_true _ _).mp hp
          exact of_decide_eq_true this.1
        have hmem : f ∈ (handler ar b c).2 := by
          rw [(handler_insert_mem ar b c f hins).2.2]
          exact List.mem_cons_self _ _
        rw [forwardedCount_zero_of_mem ar f rest _ hnf' hmem]
        simp [hp]
      · rw [Bool.not_eq_true] at hp
        rw [hp]
        simpa using ih _ hnf'

/-! ## Claim theorems -/

/-- **C5.** A request whose `type` is the verification marker
`"url_verification"` is answered by echoing back exactly the challenge
value it sent, whatever its other fields are; the check is first and has
no side effects: the trace holds only the response (no cache insertion,
no agent call, no reply post) and the dedup cache is unchanged. -/
theorem c5_verification_echo_no_side_effects (ar : String → String)
    (body : RequestBody) (cache : List String)
    (h : body.type = some "url_verification") :
    handler ar body cache = ([.respond (.challengeJson body.challenge)], cache) :=
  handler_verif ar body cache h

/-- Witness for C5: a verification request carrying a full event object
and a populated cache still only echoes its challenge. -/
theorem c5_verification_echo_no_side_effects_witness :
    handler (fun _ => "reply")
        ⟨some "url_verification", some "tok123",
          some ⟨some "message", some "hello", some "C9", some "m1",
            some "2.2", none⟩⟩ ["old_fp"]
      = ([.respond (.challengeJson (some "tok123"))], ["old_fp"]) :=
  c5_verification_echo_no_side_effects (fun _ => "reply") _ _ rfl

/-- **C6.** A non-verification request whose event has a truthy `bot_id`
is discarded silently: the agent is never invoked (for any text content),
no fingerprint is inserted into the dedup cache, and no reply is posted —
the only effect is the empty 200 response and the cache is unchanged. -/
theorem c6_bot_event_discarded (ar : String → String) (body : RequestBody)
    (cache : List String)
    (hv : body.type ≠ some "url_verification")
    (hb : truthyStr (body.event.bind (·.bot_id)) = true) :
    handler ar body cache = ([.respond .empty200], cache) :=
  handler_bot ar body cache hv hb

/-- Witness for C6: a bot-originated message with text is dropped with no
cache insertion. -/
theorem c6_bot_event_discarded_witness :
    handler (fun _ => "reply")
        ⟨some "event_callback", none,
          some ⟨some "message", some "I am a bot", some "C1", some "m2",
            some "3.3", some "B999"⟩⟩ ["x"]
      = ([.respond .empty200], ["x"]) :=
  c6_bot_event_discarded (fun _ => "reply") _ _ (by decide) (by decide)

/-- **C8.** `find-user-by-email` against a provider returning a
successful response with zero matches yields an explicit absent-user
result (`none`), not an error; against a response with one or more
matches it returns the first match. -/
theorem c8_find_user_absent_or_first (r : HttpResponse) (u : OktaUser)
    (us : List OktaUser) (hok : r.ok = true) :
    findUserByEmail r [] = .ok none
      ∧ findUserByEmail r (u :: us) = .ok (some u) := by
  constructor <;> simp [findUserByEmail, hok]

/-- Witness for C8: zero matches for `john@x.com` give an absent user;
two matches give the first. -/
theorem c8_find_user_absent_or_first_witness :
    findUserByEmail ⟨200, "[]"⟩ [] = .ok none
      ∧ findUserByEmail ⟨200, "[]"⟩
            [⟨"u1", "john@x.com"⟩, ⟨"u2", "john2@x.com"⟩]
          = .ok (some ⟨"u1", "john@x.com"⟩) :=
  c8_find_user_absent_or_first ⟨200, "[]"⟩ ⟨"u1", "john@x.com"⟩
    [⟨"u2", "john2@x.com"⟩] (by decide)

/-- **C7.** `find-group-by-name` selects among the provider's query
candidates by case-insensitive exact name equality: a returned group is
one of the candidates and its lowercased name equals the lowercased
query; when no candidate matches exactly, it returns an explicit absent
group rather than failing; on input `"developers"` it returns the group
named `"Developers"` and not one named only `"Developers Team"`. -/
theorem c7_find_group_case_insensitive (name : String) (r : HttpResponse)
    (groups : List OktaGroup) (hok : r.ok = true) :
    (∀ g, findGroupByName name r groups = .ok (some g) →
        g ∈ groups ∧ jsToLower g.name = jsToLower name)
      ∧ ((∀ g ∈ groups, jsToLower g.name ≠ jsToLower name) →
          findGroupByName name r groups = .ok none)
      ∧ findGroupByName "developers" r
            [⟨"g1", "Developers Team"⟩, ⟨"g2", "Developers"⟩]
          = .ok (some ⟨"g2", "Developers"⟩)
      ∧ findGroupByName "developers" r [⟨"g1", "Developers Team"⟩]
          = .ok none := by
  refine ⟨?_, ?_, ?_, ?_⟩
  · intro g hg
    simp only [findGroupByName, hok, Bool.not_true, Bool.false_eq_true,
      if_false, Except.ok.injEq] at hg
    have hfind : groups.find? (fun g2 => jsToLower g2.name == jsToLower name)
        = some g := hg
    refine ⟨List.mem_of_find?_eq_some hfind, ?_⟩
    have := List.find?_some hfind
    simpa using this
  · intro hnone
    simp only [findGroupByName, hok, Bool.not_true, Bool.false_eq_true,
      if_false, Except.ok.injEq]
    rw [List.find?_eq_none]
    intro g hg
    simpa using hnone g hg
  · simp [findGroupByName, hok]
    decide
  · simp [findGroupByName, hok]
    decide

/-- Witness for C7: the provider is up (HTTP 200) and the candidate list
holds `"Developers Team"` and `"Developers"`; the exact case-insensitive
match `"Developers"` is selected, and among `[ "Developers Team" ]` alone
nothing matches. -/
theorem c7_find_group_case_insensitive_witness :
    (∀ g, findGroupByName "developers" ⟨200, "[]"⟩
          [⟨"g1", "Developers Team"⟩, ⟨"g2", "Developers"⟩] = .ok (some g) →
        g ∈ [(⟨"g1", "Developers Team"⟩ : OktaGroup), ⟨"g2", "Developers"⟩]
          ∧ jsToLower g.name = jsToLower "developers")
      ∧ ((∀ g ∈ [(⟨"g1", "Developers Team"⟩ : OktaGroup), ⟨"g2", "Developers"⟩],
            jsToLower g.name ≠ jsToLower "developers") →
          findGroupByName "developers" ⟨200, "[]"⟩
              [⟨"g1", "Developers Team"⟩, ⟨"g2", "Developers"⟩] = .ok none)
      ∧ findGroupByName "developers" ⟨200, "[]"⟩
            [⟨"g1", "Developers Team"⟩, ⟨"g2", "Developers"⟩]
          = .ok (some ⟨"g2", "Developers"⟩)
      ∧ findGroupByName "developers" ⟨200, "[]"⟩ [⟨"g1", "Developers Team"⟩]
          = .ok none :=
  c7_find_group_case_insensitive "developers" ⟨200, "[]"⟩
    [⟨"g1", "Developers Team"⟩, ⟨"g2", "Developers"⟩] (by decide)

/-- **C2 counterexample.** At upstream status 404 with body
`"Not found"`, `lock-user` raises an error whose message embeds the body
but does **not** contain the status code `404`, and `reset-password`
raises nothing at all (it performs no status check and returns the
absent `resetPasswordUrl` field). -/
theorem c2_counterexample_status_missing_and_reset_password_silent :
    lockUser ⟨404, "Not found"⟩ = .error ⟨"Failed to lock user: Not found"⟩
      ∧ ¬ ("404".data <:+: "Failed to lock user: Not found".data)
      ∧ resetPassword ⟨404, "Not found"⟩ none = .ok none := by
  refine ⟨rfl, by decide, rfl⟩

/-- **C2 (amended).** On a non-success upstream status, `lock-user`,
`unlock-user`, `add-user-to-group` and `reset-mfa` raise an error whose
message is a fixed operation prefix followed by the upstream response
body text (the status code is not included); `reset-password` performs no
status check and never raises, returning the parsed `resetPasswordUrl`
field, which is absent on an error response. -/
theorem c2_amended_mutations_raise_body_only (r : HttpResponse)
    (url : Option String) (h : r.ok = false) :
    lockUser r = .error ⟨"Failed to lock user: " ++ r.body⟩
      ∧ unlockUser r = .error ⟨"Failed to unlock user: " ++ r.body⟩
      ∧ addUserToGroup r = .error ⟨"Failed to add user to group: " ++ r.body⟩
      ∧ resetMFA r = .error ⟨"Failed to reset MFA: " ++ r.body⟩
      ∧ resetPassword r url = .ok url := by
  refine ⟨?_, ?_, ?_, ?_, rfl⟩ <;>
    simp [lockUser, unlockUser, addUserToGroup, resetMFA, h]

/-- Witness for the amended C2 at status 404, body `"Not found"`. -/
theorem c2_amended_mutations_raise_body_only_witness :
    lockUser ⟨404, "Not found"⟩
        = .error ⟨"Failed to lock user: " ++ "Not found"⟩
      ∧ unlockUser ⟨404, "Not found"⟩
        = .error ⟨"Failed to unlock user: " ++ "Not found"⟩
      ∧ addUserToGroup ⟨404, "Not found"⟩
        = .error ⟨"Failed to add user to group: " ++ "Not found"⟩
      ∧ resetMFA ⟨404, "Not found"⟩
        = .error ⟨"Failed to reset MFA: " ++ "Not found"⟩
      ∧ resetPassword ⟨404, "Not found"⟩ none = .ok none :=
  c2_amended_mutations_raise_body_only ⟨404, "Not found"⟩ none (by decide)

/-- **C4 counterexample.** For the mention event with text
`"<@U123ABC> hi <@U456DEF> there"`, the text forwarded to the agent is
`"hi there"` — the regex replace is global, so the interior mention token
is also removed — whereas removing only the leading mention token would
give `"hi <@U456DEF> there"`. -/
theorem c4_counterexample_interior_mention_also_stripped :
    (handler (fun _ => "reply")
        ⟨some "event_callback", none,
          some ⟨some "app_mention", some "<@U123ABC> hi <@U456DEF> there",
            some "C1", none, some "1.1", none⟩⟩ []).1
      = [.cacheInsert "1.1_C1", .agentCall "hi there",
         .postMessage "C1" "reply", .respond .empty200]
      ∧ "hi there" ≠ "hi <@U456DEF> there" := by
  refine ⟨rfl, by decide⟩

/-- **C4 (amended).** For every mention event that is forwarded, the text
handed to the agent is the original text with **every** mention token
(`<@` then capitals/digits then `>`, plus any following whitespace)
removed, and the result trimmed of surrounding whitespace; on the spec's
example `"<@U123ABC> reset my password"` this yields
`"reset my password"`. -/
theorem c4_amended_all_mention_tokens_stripped (ar : String → String)
    (body : RequestBody) (e : SlackEvent) (cache : List String)
    (hv : body.type ≠ some "url_verification")
    (hb : truthyStr (body.event.bind (·.bot_id)) = false)
    (hdup : fingerprintOf body.event ∉ cache)
    (hee : body.event = some e)
    (ht : e.type = some "app_mention")
    (htx : truthyStr e.text = true) :
    Action.agentCall (stripMentions (jsStr e.text)) ∈ (handler ar body cache).1
      ∧ stripMentions "<@U123ABC> reset my password" = "reset my password" := by
  have he : eligibleEvent body.event = true := by
    simp [eligibleEvent, hee, ht, htx]
  rw [handler_fresh_eligible ar body e cache hv hb hdup hee he]
  refine ⟨?_, by decide⟩
  have hft : forwardedText e = stripMentions (jsStr e.text) := by
    simp [forwardedText, ht]
  rw [← hft]
  exact List.mem_cons_of_mem _ (List.mem_cons_self _ _)

/-- Witness for the amended C4 on the spec's own example event. -/
theorem c4_amended_all_mention_tokens_stripped_witness :
    Action.agentCall (stripMentions (jsStr (some "<@U123ABC> reset my password")))
        ∈ (handler (fun _ => "reply")
            ⟨some "event_callback", none,
              some ⟨some "app_mention", some "<@U123ABC> reset my password",
                some "C1", none, some "1.1", none⟩⟩ []).1
      ∧ stripMentions "<@U123ABC> reset my password" = "reset my password" :=
  c4_amended_all_mention_tokens_stripped (fun _ => "reply")
    ⟨some "event_callback", none,
      some ⟨some "app_mention", some "<@U123ABC> reset my password",
        some "C1", none, some "1.1", none⟩⟩
    ⟨some "app_mention", some "<@U123ABC> reset my password",
      some "C1", none, some "1.1", none⟩ []
    (by decide) (by decide) (by decide) rfl rfl (by decide)

/-- **C1 (code evaluation).** On a plain inbound message event, the
handler's effect order is: fingerprint insertion, agent invocation, reply
post, and only then the HTTP response — the empty 200 acknowledgment is
produced **after** the agent invocation and reply dispatch complete, not
before, so the platform response does wait on agent completion. -/
theorem c1_response_sent_after_agent_completion :
    (handler (fun _ => "Here is your reset link")
        ⟨some "event_callback", none,
          some ⟨some "message", some "help me reset my password", some "C1",
            none, some "1.1", none⟩⟩ []).1
      = [.cacheInsert "1.1_C1", .agentCall "help me reset my password",
         .postMessage "C1" "Here is your reset link", .respond .empty200]
      ∧ ([Action.cacheInsert "1.1_C1",
          .agentCall "help me reset my password",
          .postMessage "C1" "Here is your reset link",
          .respond .empty200].findIdx Action.isAgentCall
        < [Action.cacheInsert "1.1_C1",
          .agentCall "help me reset my password",
          .postMessage "C1" "Here is your reset link",
          .respond .empty200].findIdx Action.isRespond) := by
  refine ⟨rfl, by decide⟩

/-- **C3.** Deduplication: in any run of inbound requests containing no
timer flush (one TTL window), at most one request is forwarded to the
agent per fingerprint; whenever the agent is invoked, the very first
effect of that request was the insertion of its fingerprint into the
cache (before the asynchronous agent call and reply post); a request
whose fingerprint is already cached is discarded with no agent call and
no reply post; and the TTL timer flushes the cache wholesale, with
`EVENT_EXPIRY_MS = 5 * 60 * 1000`. -/
theorem c3_dedup_at_most_one_forward (ar : String → String) (f : String)
    (steps : List Step) (cache : List String)
    (hnf : Step.flush ∉ steps) :
    forwardedCount f (runSteps ar steps cache).1 ≤ 1
      ∧ (∀ b c2, ((handler ar b c2).1.any Action.isAgentCall) = true →
          (handler ar b c2).1.head?
            = some (.cacheInsert (fingerprintOf b.event)))
      ∧ (∀ b c2, b.type ≠ some "url_verification" →
          truthyStr (b.event.bind (·.bot_id)) = false →
          fingerprintOf b.event ∈ c2 →
          handler ar b c2 = ([.respond .empty200], c2))
      ∧ timerFlush cache = []
      ∧ EVENT_EXPIRY_MS = 5 * 60 * 1000 :=
  ⟨forwardedCount_le_one ar f steps cache hnf,
    fun b c2 h => handler_insert_first ar b c2 h,
    fun b c2 hv hb hdup => handler_dup ar b c2 hv hb hdup,
    rfl, rfl⟩

/-- Witness for C3: a flush-free two-request window in which the same
message (`ts` 1.1, channel C1) is delivered twice. -/
theorem c3_dedup_at_most_one_forward_witness :
    forwardedCount "1.1_C1"
        (runSteps (fun _ => "reply")
          [.request ⟨some "event_callback", none,
              some ⟨some "message", some "hello", some "C1", none,
                some "1.1", none⟩⟩,
            .request ⟨some "event_callback", none,
              some ⟨some "message", some "hello", some "C1", none,
                some "1.1", none⟩⟩] []).1 ≤ 1
      ∧ (∀ b c2, ((handler (fun _ => "reply") b c2).1.any Action.isAgentCall)
            = true →
          (handler (fun _ => "reply") b c2).1.head?
            = some (.cacheInsert (fingerprintOf b.event)))
      ∧ (∀ b c2, b.type ≠ some "url_verification" →
          truthyStr (b.event.bind (·.bot_id)) = false →
          fingerprintOf b.event ∈ c2 →
          handler (fun _ => "reply") b c2 = ([.respond .empty200], c2))
      ∧ timerFlush [] = []
      ∧ EVENT_EXPIRY_MS = 5 * 60 * 1000 :=
  c3_dedup_at_most_one_forward (fun _ => "reply") "1.1_C1"
    [.request ⟨some "event_callback", none,
        some ⟨some "message", some "hello", some "C1", none,
          some "1.1", none⟩⟩,
      .request ⟨some "event_callback", none,
        some ⟨some "message", some "hello", some "C1", none,
          some "1.1", none⟩⟩] [] (by decide)

/-- **C9.** The fingerprint is inserted before the event-type and text
checks: a non-bot, non-duplicate request whose event is ineligible (no
text or disallowed subtype) still consumes its fingerprint, so a later
request with the same fingerprint in the same window — even one carrying
text — is discarded as a duplicate, with no agent call and no reply. -/
theorem c9_ineligible_event_consumes_fingerprint (ar : String → String)
    (b1 b2 : RequestBody) (cache : List String)
    (h1v : b1.type ≠ some "url_verification")
    (h2v : b2.type ≠ some "url_verification")
    (h1b : truthyStr (b1.event.bind (·.bot_id)) = false)
    (h2b : truthyStr (b2.event.bind (·.bot_id)) = false)
    (h1e : eligibleEvent b1.event = false)
    (hfp : fingerprintOf b1.event ∉ cache)
    (heq : fingerprintOf b2.event = fingerprintOf b1.event) :
    runSteps ar [.request b1, .request b2] cache
      = ([[.cacheInsert (fingerprintOf b1.event), .respond .empty200],
          [.respond .empty200]], fingerprintOf b1.event :: cache) := by
  have h1 := handler_fresh_ineligible ar b1 cache h1v h1b hfp h1e
  have hmem : fingerprintOf b2.event ∈ fingerprintOf b1.event :: cache := by
    rw [heq]; exact List.mem_cons_self _ _
  have h2 := handler_dup ar b2 (fingerprintOf b1.event :: cache) h2v h2b hmem
  rw [runSteps_request, h1]
  simp only []
  rw [runSteps_request]
  simp only [h2]
  simp [runSteps]

/-- Witness for C9: a textless message (`ts` 9.9, channel C1) consumes
the fingerprint; the retry of the same message, now with text, is
discarded as a duplicate and never forwarded. -/
theorem c9_ineligible_event_consumes_fingerprint_witness :
    runSteps (fun _ => "reply")
        [.request ⟨some "event_callback", none,
            some ⟨some "message", none, some "C1", none, some "9.9", none⟩⟩,
          .request ⟨some "event_callback", none,
            some ⟨some "message", some "hello", some "C1", none,
              some "9.9", none⟩⟩] []
      = ([[.cacheInsert (fingerprintOf (some ⟨some "message", none, some "C1",
              none, some "9.9", none⟩)), .respond .empty200],
          [.respond .empty200]],
          [fingerprintOf (some ⟨some "message", none, some "C1", none,
            some "9.9", none⟩)]) :=
  c9_ineligible_event_consumes_fingerprint (fun _ => "reply")
    ⟨some "event_callback", none,
      some ⟨some "message", none, some "C1", none, some "9.9", none⟩⟩
    ⟨some "event_callback", none,
      some ⟨some "message", some "hello", some "C1", none, some "9.9", none⟩⟩
    [] (by decide) (by decide) (by decide) (by decide) (by decide)
    (by decide) (by decide)

/-- **C10.** When an event carries neither `client_msg_id` nor `ts`, its
fingerprint collapses to the constant `"undefined"` joined with the
channel id; hence any two such events in the same channel within one
window share a fingerprint, and the second request is discarded as a
duplicate — its trace is just the empty 200 response, with no agent
call. -/
theorem c10_missing_ids_collapse_fingerprint (ar : String → String)
    (b1 b2 : RequestBody) (e1 e2 : SlackEvent) (ch : String)
    (cache : List String)
    (he1 : b1.event = some e1) (he2 : b2.event = some e2)
    (h1v : b1.type ≠ some "url_verification")
    (h2v : b2.type ≠ some "url_verification")
    (h1b : truthyStr (b1.event.bind (·.bot_id)) = false)
    (h2b : truthyStr (b2.event.bind (·.bot_id)) = false)
    (hc1 : e1.client_msg_id = none) (ht1 : e1.ts = none)
    (hc2 : e2.client_msg_id = none) (ht2 : e2.ts = none)
    (hch1 : e1.channel = some ch) (hch2 : e2.channel = some ch) :
    fingerprintOf b1.event = "undefined" ++ "_" ++ ch
      ∧ fingerprintOf b2.event = "undefined" ++ "_" ++ ch
      ∧ (runSteps ar [.request b1, .request b2] cache).1.getD 1 []
          = [.respond .empty200] := by
  have hfp1 : fingerprintOf b1.event = "undefined" ++ "_" ++ ch := by
    simp [fingerprintOf, he1, hc1, ht1, hch1, jsOr, truthyStr, jsStr]
  have hfp2 : fingerprintOf b2.event = "undefined" ++ "_" ++ ch := by
    simp [fingerprintOf, he2, hc2, ht2, hch2, jsOr, truthyStr, jsStr]
  refine ⟨hfp1, hfp2, ?_⟩
  have hmem : fingerprintOf b2.event ∈ (handler ar b1 cache).2 := by
    rw [hfp2, ← hfp1]
    exact handler_fp_mem ar b1 cache h1v h1b
  have hd := handler_dup ar b2 _ h2v h2b hmem
  rw [runSteps_request, runSteps_request, hd]
  simp

/-- Witness for C10: two different no-id, no-ts messages in channel C1
collapse to the fingerprint `undefined_C1`; the second is discarded. -/
theorem c10_missing_ids_collapse_fingerprint_witness :
    fingerprintOf (some (⟨some "message", some "first message", some "C1",
          none, none, none⟩ : SlackEvent)) = "undefined" ++ "_" ++ "C1"
      ∧ fingerprintOf (some (⟨some "message", some "second message", some "C1",
          none, none, none⟩ : SlackEvent)) = "undefined" ++ "_" ++ "C1"
      ∧ (runSteps (fun _ => "reply")
          [.request ⟨some "event_callback", none,
              some ⟨some "message", some "first message", some "C1",
                none, none, none⟩⟩,
            .request ⟨some "event_callback", none,
              some ⟨some "message", some "second message", some "C1",
                none, none, none⟩⟩] []).1.getD 1 []
          = [.respond .empty200] :=
  c10_missing_ids_collapse_fingerprint (fun _ => "reply")
    ⟨some "event_callback", none,
      some ⟨some "message", some "first message", some "C1",
        none, none, none⟩⟩
    ⟨some "event_callback", none,
      some ⟨some "message", some "second message", some "C1",
        none, none, none⟩⟩
    ⟨some "message", some "first message", some "C1", none, none, none⟩
    ⟨some "message", some "second message", some "C1", none, none, none⟩
    "C1" [] rfl rfl (by decide) (by decide) (by decide) (by decide)
    rfl rfl rfl rfl rfl rfl

end MastraAgent
